import Mathlib

/-!
Shallow embedding of the pricing engine of `src/src/App.js`
(`calculateEstimate` and its constant tables, lines 26-372; the file
`src/unnamed/part_000` holds the same engine verbatim).

JS numbers are modelled as exact rationals; `Math.round` as
`fun x => Int.floor (x + 1/2)`; the `squareFootage` text field by its
`parseInt` content, `none` standing for the empty string (the only falsy
value the field takes), so the guard on the field is a `none` test and
`sqftNum` is the parsed number; the `setEstimate` state write as an
explicit `Option Estimate` state value.
-/

namespace PaintingCalculator

/-- Base rates per square foot (`BASE_RATES` in App.js, lines 26-29). -/
structure Rates where
  min : ℚ
  max : ℚ

def BASE_RATES : Rates := { min := 3/2, max := 7/2 }

/-- Paint tier multipliers (`PAINT_MULTIPLIERS`, lines 32-36), with the
JS lookup fallback `|| 1.0` of line 240 built into the final else. -/
def paintMultiplier (tier : String) : ℚ :=
  if tier = "standard" then 1
  else if tier = "premium" then 13/10
  else if tier = "designer" then 8/5
  else 1

/-- Difficulty multipliers (`DIFFICULTY_MULTIPLIERS`, lines 39-45), with the
JS lookup fallback `|| 1.0` of line 245 built into the final else. -/
def difficultyMultiplier (d : String) : ℚ :=
  if d = "basic" then 1
  else if d = "standard" then 6/5
  else if d = "moderate" then 3/2
  else if d = "complex" then 2
  else if d = "high_difficulty" then 5/2
  else 1

/-- `SURFACE_MULTIPLIERS.exterior` lookup (lines 57-64), with the JS
fallback `|| 1.0` of lines 281 and 321 built into the final else. -/
def exteriorWeight (s : String) : ℚ :=
  if s = "wood_siding" then 1
  else if s = "vinyl_siding" then 11/10
  else if s = "cement" then 13/10
  else if s = "stucco" then 3/2
  else if s = "brick" then 8/5
  else if s = "trim" then 1/5
  else 1

/-- The five primary exterior surface ids filtered for on lines 274-276. -/
def exteriorPrimaryIds : List String :=
  ["wood_siding", "vinyl_siding", "cement", "stucco", "brick"]

/-- `Math.max(...list)`; the engine only applies it to non-empty lists
(guarded by `length > 0`), so the empty case is unreachable. -/
def listMax : List ℚ → ℚ
  | [] => 0
  | x :: xs => xs.foldl max x

/-- Interior branch of the surface-multiplier computation
(App.js lines 253-270): additive weights, with the 0.8 minimum base when
walls are absent but some weight accumulated. -/
def interiorSM (ss : List String) : ℚ :=
  let m : ℚ :=
    (if "walls" ∈ ss then 1 else 0) +
    (if "ceilings" ∈ ss then 2/5 else 0) +
    (if "trim" ∈ ss then 3/10 else 0)
  if "walls" ∉ ss ∧ 0 < m then m + 4/5 else m

/-- Exterior branch of the surface-multiplier computation
(App.js lines 272-293): max over selected primaries plus the trim weight,
or `1.0 + trim` when only trim is selected, else the initial 1.0. -/
def exteriorSM (ss : List String) : ℚ :=
  let exts := ss.filter (fun s => decide (s ∈ exteriorPrimaryIds))
  if 0 < exts.length then
    let m := listMax (exts.map exteriorWeight)
    if "trim" ∈ ss then m + 1/5 else m
  else if "trim" ∈ ss then 1 + 1/5
  else 1

/-- Interior accumulator of the combined branch (App.js lines 297-312 and
327-330): walls and ceilings weights when some of them is selected, trim
weight added only when walls or ceilings are also selected. -/
def interiorAccumulator (ss : List String) : ℚ :=
  let ints := ss.filter (fun s => decide (s ∈ (["walls", "ceilings"] : List String)))
  let m : ℚ :=
    if 0 < ints.length then
      (if "walls" ∈ ss then 1 else 0) + (if "ceilings" ∈ ss then 2/5 else 0)
    else 0
  if "trim" ∈ ss ∧ 0 < ints.length then m + 3/10 else m

/-- Exterior accumulator of the combined branch (App.js lines 298, 315-324
and 331-333): max over selected primaries (default 1.0), trim weight added
only when some primary exterior surface is selected. -/
def exteriorAccumulator (ss : List String) : ℚ :=
  let exts := ss.filter (fun s => decide (s ∈ exteriorPrimaryIds))
  let m : ℚ := if 0 < exts.length then listMax (exts.map exteriorWeight) else 1
  if "trim" ∈ ss ∧ 0 < exts.length then m + 1/5 else m

/-- Combined branch result (App.js line 337): the mean of
`Math.max(interiorMultiplier, 1.0)` and the exterior accumulator. -/
def bothSM (ss : List String) : ℚ :=
  (max (interiorAccumulator ss) 1 + exteriorAccumulator ss) / 2

/-- Surface multiplier dispatch (App.js lines 250-339): 1.0 for an empty
selection; the interior or exterior branch value otherwise, overwritten by
the combined value for project type `both`. -/
def surfaceMultiplier (pt : String) (ss : List String) : ℚ :=
  if ss.length = 0 then 1
  else
    let sm : ℚ :=
      if pt = "interior" then interiorSM ss
      else if pt = "exterior" ∨ pt = "both" then exteriorSM ss
      else 1
    if pt = "both" then bothSM ss else sm

/-- Minimum pricing thresholds (`MINIMUM_PRICING`, lines 68-71). -/
structure MinimumPricing where
  absoluteMin : ℚ
  rangeSpread : ℚ

def MINIMUM_PRICING : MinimumPricing := { absoluteMin := 3000, rangeSpread := 3000 }

/-- The five form fields `calculateEstimate` reads; text fields are the raw
strings of the form state, surfaces the selected id list. -/
structure FormData where
  projectType : String
  squareFootage : Option ℕ
  paintTier : String
  surfaces : List String
  difficultyLevel : String

/-- The result object built on lines 365-369; `tierName` is `none` when the
JS lookup of line 368 yields `undefined`. -/
structure Estimate where
  min : ℤ
  max : ℤ
  tierName : Option String
deriving DecidableEq

/-- `tierNames` lookup of lines 359-363. -/
def tierNames (t : String) : Option String :=
  if t = "standard" then some "Standard Paint"
  else if t = "premium" then some "Premium Paint"
  else if t = "designer" then some "Designer/Specialty Paint"
  else none

/-- `Math.round` on the nonnegative prices produced by the engine. -/
def jsRound (x : ℚ) : ℤ := ⌊x + 1/2⌋

/-- `parseInt(formData.squareFootage)` (line 233); only reached when the
field is non-empty. -/
def sqftNum (fd : FormData) : ℕ := fd.squareFootage.getD 0

/-- Per-square-foot minimum after the tier, difficulty and surface steps
(lines 236-342, min endpoint). -/
def perSqftMin (fd : FormData) : ℚ :=
  BASE_RATES.min * paintMultiplier fd.paintTier * difficultyMultiplier fd.difficultyLevel
    * surfaceMultiplier fd.projectType fd.surfaces

/-- Per-square-foot maximum after the tier, difficulty and surface steps
(lines 236-342, max endpoint). -/
def perSqftMax (fd : FormData) : ℚ :=
  BASE_RATES.max * paintMultiplier fd.paintTier * difficultyMultiplier fd.difficultyLevel
    * surfaceMultiplier fd.projectType fd.surfaces

/-- Raw minimum price before the floors (line 345). -/
def rawMin (fd : FormData) : ℚ := (sqftNum fd : ℚ) * perSqftMin fd

/-- Raw maximum price before the floors (line 346). -/
def rawMax (fd : FormData) : ℚ := (sqftNum fd : ℚ) * perSqftMax fd

/-- Spread floor followed by absolute floor (App.js lines 348-357). -/
def flooredPair (mn mx : ℚ) : ℚ × ℚ :=
  let mx1 := if mx - mn < MINIMUM_PRICING.rangeSpread then mn + MINIMUM_PRICING.rangeSpread else mx
  if mn < MINIMUM_PRICING.absoluteMin then
    (MINIMUM_PRICING.absoluteMin, max mx1 (MINIMUM_PRICING.absoluteMin + MINIMUM_PRICING.rangeSpread))
  else (mn, mx1)

/-- The full pricing computation performed once the guard of lines 229-231
has passed: lines 233-369. -/
def computeEstimate (fd : FormData) : Estimate :=
  let p := flooredPair (rawMin fd) (rawMax fd)
  { min := jsRound p.1, max := jsRound p.2, tierName := tierNames fd.paintTier }

/-- `calculateEstimate` (lines 228-372) as a transform of the estimate
state: the guard of lines 229-231 returns with the state untouched, the
computed path stores the fresh result via `setEstimate`. -/
def calculateEstimate (fd : FormData) (prev : Option Estimate) : Option Estimate :=
  if fd.projectType = "" ∨ fd.squareFootage = none ∨ fd.paintTier = "" then prev
  else some (computeEstimate fd)

/-- Interior surface ids (`getInteriorSurfaces`, lines 162-166). -/
def interiorIds : List String := ["walls", "ceilings", "trim"]

/-- Exterior surface ids (`getExteriorSurfaces`, lines 168-175). -/
def exteriorIds : List String := ["wood_siding", "trim", "stucco", "cement", "vinyl_siding", "brick"]

/-- The surface ids offered for a project type (`getSurfaceOptions`, lines
177-182; the `both` case concatenates the interior and exterior lists). -/
def allowedIds (pt : String) : List String :=
  if pt = "interior" then interiorIds
  else if pt = "exterior" then exteriorIds
  else interiorIds ++ exteriorIds

/-- A selection is valid when every selected id is offered for the chosen
project type. -/
abbrev ValidSurfaces (pt : String) (ss : List String) : Prop :=
  ∀ s ∈ ss, s ∈ allowedIds pt

/-- The precondition of the spec: project type and paint tier selected,
square footage a decimal integer of at least 100, surfaces valid for the
project type. -/
abbrev ValidInput (fd : FormData) : Prop :=
  (fd.projectType = "interior" ∨ fd.projectType = "exterior" ∨ fd.projectType = "both") ∧
  (fd.paintTier = "standard" ∨ fd.paintTier = "premium" ∨ fd.paintTier = "designer") ∧
  fd.squareFootage ≠ none ∧ 100 ≤ sqftNum fd ∧
  ValidSurfaces fd.projectType fd.surfaces


/-- The same form data with the paint tier replaced; used to compare runs
of the engine that differ only in tier. -/
def withTier (fd : FormData) (t : String) : FormData :=
  { fd with paintTier := t }

/-- Modelled from the spec: the estimate computed with the paint-tier
multiplier step (algorithm step 2) skipped, used only to compare the
engine against the spec on out-of-domain tier keys. -/
def computeEstimateSkippingTier (fd : FormData) : Estimate :=
  let mn := (sqftNum fd : ℚ) * (BASE_RATES.min * difficultyMultiplier fd.difficultyLevel
    * surfaceMultiplier fd.projectType fd.surfaces)
  let mx := (sqftNum fd : ℚ) * (BASE_RATES.max * difficultyMultiplier fd.difficultyLevel
    * surfaceMultiplier fd.projectType fd.surfaces)
  let p := flooredPair mn mx
  { min := jsRound p.1, max := jsRound p.2, tierName := tierNames fd.paintTier }

/-- Modelled from the spec: the estimate computed with the difficulty
multiplier step (algorithm step 3) skipped, used only to compare the
engine against the spec on out-of-domain difficulty keys. -/
def computeEstimateSkippingDifficulty (fd : FormData) : Estimate :=
  let mn := (sqftNum fd : ℚ) * (BASE_RATES.min * paintMultiplier fd.paintTier
    * surfaceMultiplier fd.projectType fd.surfaces)
  let mx := (sqftNum fd : ℚ) * (BASE_RATES.max * paintMultiplier fd.paintTier
    * surfaceMultiplier fd.projectType fd.surfaces)
  let p := flooredPair mn mx
  { min := jsRound p.1, max := jsRound p.2, tierName := tierNames fd.paintTier }

/-! Helper lemmas about the floors, rounding and the multiplier tables. -/

/-- Normal form of the two floors: the minimum is clamped to 3000, the
maximum to the larger of the raw maximum, minimum plus spread, and 6000. -/
lemma flooredPair_eq (mn mx : ℚ) :
    flooredPair mn mx = (max mn 3000, max (max mx (mn + 3000)) 6000) := by
  simp only [flooredPair, MINIMUM_PRICING]
  split_ifs with h1 h2 h3 <;>
    refine Prod.ext ?_ ?_ <;>
    simp only [max_def] <;>
    split_ifs <;>
    first | rfl | linarith

lemma jsRound_mono {a b : ℚ} (h : a ≤ b) : jsRound a ≤ jsRound b := by
  unfold jsRound
  exact Int.floor_le_floor (by linarith)

lemma jsRound_add_int (a : ℚ) (n : ℤ) : jsRound (a + n) = jsRound a + n := by
  unfold jsRound
  rw [add_right_comm, Int.floor_add_int]

lemma int_le_jsRound {n : ℤ} {a : ℚ} (h : (n : ℚ) ≤ a) : n ≤ jsRound a := by
  unfold jsRound
  exact Int.le_floor.mpr (by linarith)

lemma one_le_paintMultiplier (t : String) : 1 ≤ paintMultiplier t := by
  unfold paintMultiplier
  split_ifs <;> norm_num

lemma one_le_difficultyMultiplier (d : String) : 1 ≤ difficultyMultiplier d := by
  unfold difficultyMultiplier
  split_ifs <;> norm_num

lemma le_foldl_max (a : ℚ) (l : List ℚ) : a ≤ l.foldl max a := by
  induction l generalizing a with
  | nil => exact le_refl a
  | cons x xs ih => exact le_trans (le_max_left a x) (ih (max a x))

lemma one_le_listMax {l : List ℚ} (hne : l ≠ []) (h : ∀ x ∈ l, 1 ≤ x) : 1 ≤ listMax l := by
  cases l with
  | nil => exact absurd rfl hne
  | cons x xs =>
      exact le_trans (h x (List.mem_cons_self x xs)) (le_foldl_max x xs)

lemma one_le_exteriorWeight_of_primary {s : String} (h : s ∈ exteriorPrimaryIds) :
    1 ≤ exteriorWeight s := by
  simp only [exteriorPrimaryIds, List.mem_cons, List.not_mem_nil, or_false] at h
  rcases h with rfl | rfl | rfl | rfl | rfl <;> simp [exteriorWeight] <;> norm_num

lemma one_le_listMax_weights (ss : List String)
    (h : ss.filter (fun s => decide (s ∈ exteriorPrimaryIds)) ≠ []) :
    1 ≤ listMax ((ss.filter (fun s => decide (s ∈ exteriorPrimaryIds))).map exteriorWeight) := by
  apply one_le_listMax
  · simp [h]
  · intro x hx
    obtain ⟨s, hs, rfl⟩ := List.mem_map.mp hx
    have := List.of_mem_filter hs
    exact one_le_exteriorWeight_of_primary (by simpa using this)

lemma one_le_exteriorSM (ss : List String) : 1 ≤ exteriorSM ss := by
  simp only [exteriorSM]
  split_ifs with h1 h2 h3
  · have := one_le_listMax_weights ss (List.length_pos.mp h1)
    linarith
  · exact one_le_listMax_weights ss (List.length_pos.mp h1)
  · norm_num
  · norm_num

lemma one_le_exteriorAccumulator (ss : List String) : 1 ≤ exteriorAccumulator ss := by
  simp only [exteriorAccumulator]
  split_ifs with h1 h2 h3
  · have := one_le_listMax_weights ss (List.length_pos.mp h2)
    linarith
  · exact absurd h1.2 h2
  · exact one_le_listMax_weights ss (List.length_pos.mp h3)
  · norm_num

lemma one_le_bothSM (ss : List String) : 1 ≤ bothSM ss := by
  unfold bothSM
  have h1 : (1 : ℚ) ≤ max (interiorAccumulator ss) 1 := le_max_right _ _
  have h2 := one_le_exteriorAccumulator ss
  linarith

lemma interiorSM_nonneg (ss : List String) : 0 ≤ interiorSM ss := by
  simp only [interiorSM]
  split_ifs <;> norm_num

lemma surfaceMultiplier_nonneg (pt : String) (ss : List String) :
    0 ≤ surfaceMultiplier pt ss := by
  have hb := one_le_bothSM ss
  have he := one_le_exteriorSM ss
  have hi := interiorSM_nonneg ss
  simp only [surfaceMultiplier]
  split_ifs <;> linarith

lemma one_le_interiorSM (ss : List String) (hne : ss ≠ [])
    (hv : ∀ s ∈ ss, s ∈ interiorIds) : 1 ≤ interiorSM ss := by
  simp only [interiorSM]
  by_cases hw : "walls" ∈ ss
  · rw [if_pos hw, if_neg (by simp [hw])]
    split_ifs <;> norm_num
  · rw [if_neg hw]
    obtain ⟨s, hs⟩ := List.exists_mem_of_ne_nil ss hne
    have hmem := hv s hs
    simp only [interiorIds, List.mem_cons, List.not_mem_nil, or_false] at hmem
    have hct : "ceilings" ∈ ss ∨ "trim" ∈ ss := by
      rcases hmem with rfl | rfl | rfl
      · exact absurd hs hw
      · exact Or.inl hs
      · exact Or.inr hs
    have hc0 : (0:ℚ) ≤ if "ceilings" ∈ ss then 2/5 else 0 := by split_ifs <;> norm_num
    have ht0 : (0:ℚ) ≤ if "trim" ∈ ss then 3/10 else 0 := by split_ifs <;> norm_num
    have hpos : 0 < (0:ℚ) + (if "ceilings" ∈ ss then 2/5 else 0) +
        (if "trim" ∈ ss then 3/10 else 0) := by
      rcases hct with hc | ht
      · rw [if_pos hc]
        linarith
      · rw [if_pos ht]
        linarith
    rw [if_pos ⟨hw, hpos⟩]
    rcases hct with hc | ht
    · rw [if_pos hc]
      linarith
    · rw [if_pos ht]
      linarith

lemma one_le_surfaceMultiplier (pt : String) (ss : List String)
    (hpt : pt = "interior" ∨ pt = "exterior" ∨ pt = "both")
    (hv : ValidSurfaces pt ss) : 1 ≤ surfaceMultiplier pt ss := by
  simp only [surfaceMultiplier]
  by_cases hlen : ss.length = 0
  · rw [if_pos hlen]
  · rw [if_neg hlen]
    have hne : ss ≠ [] := by
      intro hnil
      rw [hnil] at hlen
      exact hlen rfl
    rcases hpt with h | h | h <;> subst h
    · have := one_le_interiorSM ss hne (by simpa [ValidSurfaces, allowedIds] using hv)
      simpa using this
    · have := one_le_exteriorSM ss
      simpa using this
    · have := one_le_bothSM ss
      simpa using this

lemma computeEstimate_min (fd : FormData) :
    (computeEstimate fd).min = jsRound (max (rawMin fd) 3000) := by
  simp only [computeEstimate, flooredPair_eq]

lemma computeEstimate_max (fd : FormData) :
    (computeEstimate fd).max =
      jsRound (max (max (rawMax fd) (rawMin fd + 3000)) 6000) := by
  simp only [computeEstimate, flooredPair_eq]

lemma perSqftMin_nonneg (fd : FormData) : 0 ≤ perSqftMin fd := by
  unfold perSqftMin
  have h1 := one_le_paintMultiplier fd.paintTier
  have h2 := one_le_difficultyMultiplier fd.difficultyLevel
  have h3 := surfaceMultiplier_nonneg fd.projectType fd.surfaces
  have h0 : (0:ℚ) ≤ BASE_RATES.min := by norm_num [BASE_RATES]
  exact mul_nonneg (mul_nonneg (mul_nonneg h0 (by linarith)) (by linarith)) h3

lemma perSqftMax_nonneg (fd : FormData) : 0 ≤ perSqftMax fd := by
  unfold perSqftMax
  have h1 := one_le_paintMultiplier fd.paintTier
  have h2 := one_le_difficultyMultiplier fd.difficultyLevel
  have h3 := surfaceMultiplier_nonneg fd.projectType fd.surfaces
  have h0 : (0:ℚ) ≤ BASE_RATES.max := by norm_num [BASE_RATES]
  exact mul_nonneg (mul_nonneg (mul_nonneg h0 (by linarith)) (by linarith)) h3

lemma rawMin_nonneg (fd : FormData) : 0 ≤ rawMin fd :=
  mul_nonneg (Nat.cast_nonneg _) (perSqftMin_nonneg fd)


/-! Claim theorems. -/

/-- C1: Scenario B. For exterior, 2000 sqft, premium tier, standard
difficulty, surfaces brick and trim, the surface multiplier is
1.6 + 0.2 = 1.8 and the estimate is 8424 to 19656 with the premium label,
the spread and absolute floors leaving the band unchanged. -/
theorem claim_C1_scenarioB :
    surfaceMultiplier "exterior" ["brick", "trim"] = 9/5 ∧
    computeEstimate ⟨"exterior", some 2000, "premium", ["brick", "trim"], "standard"⟩ =
      { min := 8424, max := 19656, tierName := some "Premium Paint" } := by
  have hsm : surfaceMultiplier "exterior" ["brick", "trim"] = 9/5 := by
    simp [surfaceMultiplier, exteriorSM, exteriorPrimaryIds, listMax, exteriorWeight,
      List.filter_cons, List.filter_nil]
    norm_num
  refine ⟨hsm, ?_⟩
  simp [computeEstimate, rawMin, rawMax, perSqftMin, perSqftMax, sqftNum, hsm, flooredPair,
    jsRound, BASE_RATES, MINIMUM_PRICING, paintMultiplier, difficultyMultiplier, tierNames]
  norm_num [Int.floor_eq_iff]

/-- C3: Scenario A. For interior, 1000 sqft, standard tier, basic
difficulty, surfaces walls only, the raw band is 1500 to 3500, the spread
floor raises the maximum to 4500, then the absolute floor raises the
minimum to 3000 and the maximum to 6000. -/
theorem claim_C3_scenarioA :
    rawMin ⟨"interior", some 1000, "standard", ["walls"], "basic"⟩ = 1500 ∧
    rawMax ⟨"interior", some 1000, "standard", ["walls"], "basic"⟩ = 3500 ∧
    flooredPair 1500 3500 = (3000, 6000) ∧
    computeEstimate ⟨"interior", some 1000, "standard", ["walls"], "basic"⟩ =
      { min := 3000, max := 6000, tierName := some "Standard Paint" } := by
  have hsm : surfaceMultiplier "interior" ["walls"] = 1 := by
    simp [surfaceMultiplier, interiorSM]
  refine ⟨?_, ?_, ?_, ?_⟩
  · simp [rawMin, perSqftMin, sqftNum, hsm, BASE_RATES, paintMultiplier, difficultyMultiplier]
    norm_num
  · simp [rawMax, perSqftMax, sqftNum, hsm, BASE_RATES, paintMultiplier, difficultyMultiplier]
    norm_num
  · rw [flooredPair_eq]
    norm_num
  · simp [computeEstimate, rawMin, rawMax, perSqftMin, perSqftMax, sqftNum, hsm, flooredPair,
      jsRound, BASE_RATES, MINIMUM_PRICING, paintMultiplier, difficultyMultiplier, tierNames]
    norm_num [Int.floor_eq_iff, max_def]

/-- C2 counterexample: for project type both with only trim selected, the
engine leaves the exterior accumulator at 1.0 (the trim weight is NOT
added, because no primary exterior surface is selected) and the final
surface multiplier is the neutral 1.0, not the 1.1 the claim asserts. -/
theorem claim_C2_counterexample :
    exteriorAccumulator ["trim"] = 1 ∧
    surfaceMultiplier "both" ["trim"] = 1 ∧
    surfaceMultiplier "both" ["trim"] ≠ 11/10 := by
  have h1 : exteriorAccumulator ["trim"] = 1 := by
    simp [exteriorAccumulator, exteriorPrimaryIds, List.filter_cons, List.filter_nil]
  have h2 : surfaceMultiplier "both" ["trim"] = 1 := by
    simp [surfaceMultiplier, bothSM, interiorAccumulator, exteriorAccumulator,
      exteriorPrimaryIds, List.filter_cons, List.filter_nil]
  refine ⟨h1, h2, ?_⟩
  rw [h2]
  norm_num

/-- C2 amended: for project type both, the exterior-trim weight is added to
the exterior accumulator only when a primary exterior surface is selected;
when none is, the accumulator stays 1.0 even with trim selected, and the
final surface multiplier is the mean of the clamped interior accumulator
and 1.0 (the neutral 1.0 for surfaces consisting of trim alone). -/
theorem claim_C2_amended (ss : List String) (hne : ss ≠ [])
    (h : ∀ s ∈ ss, s ∉ exteriorPrimaryIds) :
    exteriorAccumulator ss = 1 ∧
    surfaceMultiplier "both" ss = (max (interiorAccumulator ss) 1 + 1) / 2 := by
  have hfil : ss.filter (fun s => decide (s ∈ exteriorPrimaryIds)) = [] := by
    rw [List.filter_eq_nil_iff]
    intro s hs
    simpa using h s hs
  have hacc : exteriorAccumulator ss = 1 := by
    simp only [exteriorAccumulator, hfil]
    simp
  refine ⟨hacc, ?_⟩
  have hlen : ¬ ss.length = 0 := by
    intro h0
    exact hne (List.length_eq_zero.mp h0)
  simp only [surfaceMultiplier, bothSM, hacc, if_neg hlen]
  simp

/-- C2 amended, witness at surfaces consisting of trim alone. -/
theorem claim_C2_amended_witness :
    exteriorAccumulator ["trim"] = 1 ∧
    surfaceMultiplier "both" ["trim"] = (max (interiorAccumulator ["trim"]) 1 + 1) / 2 :=
  claim_C2_amended ["trim"] (by decide) (by decide)

/-- C9: when project type, square footage or paint tier is empty or
missing, calculateEstimate returns through the guard without computing or
storing anything, leaving the previously held estimate state unchanged. -/
theorem claim_C9_guard (fd : FormData) (prev : Option Estimate)
    (h : fd.projectType = "" ∨ fd.squareFootage = none ∨ fd.paintTier = "") :
    calculateEstimate fd prev = prev := by
  unfold calculateEstimate
  rw [if_pos h]

/-- C9 witness: with the project type unset, a previously stored estimate
survives the call untouched. -/
theorem claim_C9_guard_witness :
    calculateEstimate ⟨"", some 1000, "premium", ["walls"], "basic"⟩
        (some { min := 3000, max := 6000, tierName := some "Standard Paint" }) =
      some { min := 3000, max := 6000, tierName := some "Standard Paint" } :=
  claim_C9_guard _ _ (Or.inl rfl)


/-- C4: for every input satisfying the precondition, the rounded minimum
price is at least the absolute minimum 3000. -/
theorem claim_C4_absolute_floor (fd : FormData) (h : ValidInput fd) :
    3000 ≤ (computeEstimate fd).min := by
  rw [computeEstimate_min]
  exact int_le_jsRound (by push_cast; exact le_max_right _ _)

/-- C4 witness at Scenario A. -/
theorem claim_C4_absolute_floor_witness :
    ValidInput ⟨"interior", some 1000, "standard", ["walls"], "basic"⟩ ∧
    3000 ≤ (computeEstimate ⟨"interior", some 1000, "standard", ["walls"], "basic"⟩).min :=
  ⟨by decide, claim_C4_absolute_floor _ (by decide)⟩

/-- C5: for every input satisfying the precondition, the rounded band keeps
the minimum spread: maxPrice minus minPrice is at least 3000. -/
theorem claim_C5_spread (fd : FormData) (h : ValidInput fd) :
    3000 ≤ (computeEstimate fd).max - (computeEstimate fd).min := by
  rw [computeEstimate_min, computeEstimate_max]
  have key : max (rawMin fd) 3000 + ((3000 : ℤ) : ℚ) ≤
      max (max (rawMax fd) (rawMin fd + 3000)) 6000 := by
    push_cast
    rcases le_total (rawMin fd) 3000 with h1 | h1
    · rw [max_eq_right h1]
      norm_num
    · rw [max_eq_left h1]
      exact le_max_of_le_left (le_max_right _ _)
  have hmono := jsRound_mono key
  rw [jsRound_add_int] at hmono
  linarith

/-- C5 witness at Scenario A. -/
theorem claim_C5_spread_witness :
    ValidInput ⟨"interior", some 1000, "standard", ["walls"], "basic"⟩ ∧
    3000 ≤ (computeEstimate ⟨"interior", some 1000, "standard", ["walls"], "basic"⟩).max -
      (computeEstimate ⟨"interior", some 1000, "standard", ["walls"], "basic"⟩).min :=
  ⟨by decide, claim_C5_spread _ (by decide)⟩

/-- C10: for every input satisfying the precondition the surface multiplier
is at least 1.0, so the surface step never prices the band below base times
tier times difficulty. -/
theorem claim_C10_surface_multiplier (fd : FormData) (h : ValidInput fd) :
    1 ≤ surfaceMultiplier fd.projectType fd.surfaces ∧
    BASE_RATES.min * paintMultiplier fd.paintTier * difficultyMultiplier fd.difficultyLevel ≤
      perSqftMin fd ∧
    BASE_RATES.max * paintMultiplier fd.paintTier * difficultyMultiplier fd.difficultyLevel ≤
      perSqftMax fd := by
  obtain ⟨hpt, -, -, -, hv⟩ := h
  have hsm := one_le_surfaceMultiplier fd.projectType fd.surfaces hpt hv
  refine ⟨hsm, ?_, ?_⟩
  · have hpre : 0 ≤ BASE_RATES.min * paintMultiplier fd.paintTier *
        difficultyMultiplier fd.difficultyLevel := by
      have h1 := one_le_paintMultiplier fd.paintTier
      have h2 := one_le_difficultyMultiplier fd.difficultyLevel
      have h0 : (0:ℚ) ≤ BASE_RATES.min := by norm_num [BASE_RATES]
      exact mul_nonneg (mul_nonneg h0 (by linarith)) (by linarith)
    calc BASE_RATES.min * paintMultiplier fd.paintTier * difficultyMultiplier fd.difficultyLevel
        = BASE_RATES.min * paintMultiplier fd.paintTier *
            difficultyMultiplier fd.difficultyLevel * 1 := by ring
      _ ≤ perSqftMin fd := mul_le_mul_of_nonneg_left hsm hpre
  · have hpre : 0 ≤ BASE_RATES.max * paintMultiplier fd.paintTier *
        difficultyMultiplier fd.difficultyLevel := by
      have h1 := one_le_paintMultiplier fd.paintTier
      have h2 := one_le_difficultyMultiplier fd.difficultyLevel
      have h0 : (0:ℚ) ≤ BASE_RATES.max := by norm_num [BASE_RATES]
      exact mul_nonneg (mul_nonneg h0 (by linarith)) (by linarith)
    calc BASE_RATES.max * paintMultiplier fd.paintTier * difficultyMultiplier fd.difficultyLevel
        = BASE_RATES.max * paintMultiplier fd.paintTier *
            difficultyMultiplier fd.difficultyLevel * 1 := by ring
      _ ≤ perSqftMax fd := mul_le_mul_of_nonneg_left hsm hpre

/-- C10 witness: interior with only ceilings selected, reaching 1.2 through
the 0.8 minimum-base weight. -/
theorem claim_C10_surface_multiplier_witness :
    ValidInput ⟨"interior", some 500, "premium", ["ceilings"], "moderate"⟩ ∧
    1 ≤ surfaceMultiplier
        (FormData.mk "interior" (some 500) "premium" ["ceilings"] "moderate").projectType
        (FormData.mk "interior" (some 500) "premium" ["ceilings"] "moderate").surfaces :=
  ⟨by decide,
    (claim_C10_surface_multiplier
      (FormData.mk "interior" (some 500) "premium" ["ceilings"] "moderate") (by decide)).1⟩


/-- C6: with project type, tier, difficulty and surfaces fixed, both bounds
of the estimate are non-decreasing in the square footage, across the spread
and absolute floor adjustments. -/
theorem claim_C6_sqft_monotone (fd fd' : FormData) (s s' : ℕ)
    (hs : fd.squareFootage = some s) (hs' : fd'.squareFootage = some s')
    (hpt : fd'.projectType = fd.projectType) (htier : fd'.paintTier = fd.paintTier)
    (hdl : fd'.difficultyLevel = fd.difficultyLevel) (hss : fd'.surfaces = fd.surfaces)
    (h100 : 100 ≤ s) (hle : s ≤ s')
    (hv : ValidSurfaces fd.projectType fd.surfaces) :
    (computeEstimate fd).min ≤ (computeEstimate fd').min ∧
    (computeEstimate fd).max ≤ (computeEstimate fd').max := by
  have hper : perSqftMin fd' = perSqftMin fd := by
    unfold perSqftMin
    rw [htier, hdl, hpt, hss]
  have hperx : perSqftMax fd' = perSqftMax fd := by
    unfold perSqftMax
    rw [htier, hdl, hpt, hss]
  have hsq : (sqftNum fd : ℚ) ≤ (sqftNum fd' : ℚ) := by
    unfold sqftNum
    rw [hs, hs']
    simp only [Option.getD_some]
    exact_mod_cast hle
  have h1 : rawMin fd ≤ rawMin fd' := by
    unfold rawMin
    rw [hper]
    exact mul_le_mul_of_nonneg_right hsq (perSqftMin_nonneg fd)
  have h2 : rawMax fd ≤ rawMax fd' := by
    unfold rawMax
    rw [hperx]
    exact mul_le_mul_of_nonneg_right hsq (perSqftMax_nonneg fd)
  constructor
  · rw [computeEstimate_min, computeEstimate_min]
    exact jsRound_mono (max_le_max h1 le_rfl)
  · rw [computeEstimate_max, computeEstimate_max]
    exact jsRound_mono (max_le_max (max_le_max h2 (by linarith)) le_rfl)

/-- C6 witness: Scenario A at 1000 versus 2000 square feet. -/
theorem claim_C6_sqft_monotone_witness :
    (computeEstimate (FormData.mk "interior" (some 1000) "standard" ["walls"] "basic")).min ≤
      (computeEstimate (FormData.mk "interior" (some 2000) "standard" ["walls"] "basic")).min ∧
    (computeEstimate (FormData.mk "interior" (some 1000) "standard" ["walls"] "basic")).max ≤
      (computeEstimate (FormData.mk "interior" (some 2000) "standard" ["walls"] "basic")).max :=
  claim_C6_sqft_monotone
    (FormData.mk "interior" (some 1000) "standard" ["walls"] "basic")
    (FormData.mk "interior" (some 2000) "standard" ["walls"] "basic")
    1000 2000 rfl rfl rfl rfl rfl rfl (by decide) (by decide) (by decide)

lemma rawMin_withTier (fd : FormData) (t : String) :
    rawMin (withTier fd t) = (sqftNum fd : ℚ) * (BASE_RATES.min * paintMultiplier t *
      difficultyMultiplier fd.difficultyLevel * surfaceMultiplier fd.projectType fd.surfaces) :=
  rfl

/-- C7: with the other inputs fixed, the minimum price is ordered
standard at most premium at most designer, strictly once the pre-floor
minimum at the standard tier exceeds the absolute minimum 3000. -/
theorem claim_C7_tier_ordering (fd : FormData) :
    (computeEstimate (withTier fd "standard")).min ≤
      (computeEstimate (withTier fd "premium")).min ∧
    (computeEstimate (withTier fd "premium")).min ≤
      (computeEstimate (withTier fd "designer")).min ∧
    (3000 < rawMin (withTier fd "standard") →
      (computeEstimate (withTier fd "standard")).min <
        (computeEstimate (withTier fd "premium")).min ∧
      (computeEstimate (withTier fd "premium")).min <
        (computeEstimate (withTier fd "designer")).min) := by
  have hps : paintMultiplier "standard" = 1 := by simp [paintMultiplier]
  have hpp : paintMultiplier "premium" = 13/10 := by simp [paintMultiplier]
  have hpd : paintMultiplier "designer" = 8/5 := by simp [paintMultiplier]
  have hP : rawMin (withTier fd "premium") = 13/10 * rawMin (withTier fd "standard") := by
    rw [rawMin_withTier, rawMin_withTier, hps, hpp]
    ring
  have hD : rawMin (withTier fd "designer") = 8/5 * rawMin (withTier fd "standard") := by
    rw [rawMin_withTier, rawMin_withTier, hps, hpd]
    ring
  have ha : 0 ≤ rawMin (withTier fd "standard") := rawMin_nonneg _
  refine ⟨?_, ?_, ?_⟩
  · rw [computeEstimate_min, computeEstimate_min, hP]
    exact jsRound_mono (max_le_max (by linarith) le_rfl)
  · rw [computeEstimate_min, computeEstimate_min, hP, hD]
    exact jsRound_mono (max_le_max (by linarith) le_rfl)
  · intro h
    have hmaxS : max (rawMin (withTier fd "standard")) 3000 =
        rawMin (withTier fd "standard") := max_eq_left (by linarith)
    constructor
    · rw [computeEstimate_min, computeEstimate_min, hP, hmaxS,
        max_eq_left (by linarith : (3000:ℚ) ≤ 13/10 * rawMin (withTier fd "standard"))]
      have h900 : rawMin (withTier fd "standard") + ((900:ℤ):ℚ) ≤
          13/10 * rawMin (withTier fd "standard") := by
        push_cast
        linarith
      have hm := jsRound_mono h900
      rw [jsRound_add_int] at hm
      linarith
    · rw [computeEstimate_min, computeEstimate_min, hP, hD,
        max_eq_left (by linarith : (3000:ℚ) ≤ 13/10 * rawMin (withTier fd "standard")),
        max_eq_left (by linarith : (3000:ℚ) ≤ 8/5 * rawMin (withTier fd "standard"))]
      have h900 : 13/10 * rawMin (withTier fd "standard") + ((900:ℤ):ℚ) ≤
          8/5 * rawMin (withTier fd "standard") := by
        push_cast
        linarith
      have hm := jsRound_mono h900
      rw [jsRound_add_int] at hm
      linarith

/-- C7 witness: interior walls at 10000 square feet, whose pre-floor
standard-tier minimum 15000 exceeds 3000, making the chain strict. -/
theorem claim_C7_tier_ordering_witness :
    3000 < rawMin (withTier (FormData.mk "interior" (some 10000) "standard" ["walls"] "basic")
        "standard") ∧
    (computeEstimate (withTier (FormData.mk "interior" (some 10000) "standard" ["walls"] "basic")
        "standard")).min <
      (computeEstimate (withTier (FormData.mk "interior" (some 10000) "standard" ["walls"] "basic")
        "premium")).min := by
  have hraw : 3000 < rawMin (withTier
      (FormData.mk "interior" (some 10000) "standard" ["walls"] "basic") "standard") := by
    rw [rawMin_withTier]
    have hsm : surfaceMultiplier "interior" ["walls"] = 1 := by
      simp [surfaceMultiplier, interiorSM]
    simp [sqftNum, BASE_RATES, paintMultiplier, difficultyMultiplier, hsm]
    norm_num
  exact ⟨hraw,
    ((claim_C7_tier_ordering
      (FormData.mk "interior" (some 10000) "standard" ["walls"] "basic")).2.2 hraw).1⟩

/-- C8: an unrecognized paint tier or difficulty key does not make the
engine fail; the lookup falls back to the multiplier 1.0 and the price band
equals the one computed with that multiplier step skipped. -/
theorem claim_C8_unrecognized_keys (fd : FormData) :
    (fd.paintTier ∉ (["standard", "premium", "designer"] : List String) →
      paintMultiplier fd.paintTier = 1 ∧
      computeEstimate fd = computeEstimateSkippingTier fd) ∧
    (fd.difficultyLevel ∉
        (["basic", "standard", "moderate", "complex", "high_difficulty"] : List String) →
      difficultyMultiplier fd.difficultyLevel = 1 ∧
      computeEstimate fd = computeEstimateSkippingDifficulty fd) := by
  constructor
  · intro h
    simp only [List.mem_cons, List.not_mem_nil, or_false, not_or] at h
    obtain ⟨h1, h2, h3⟩ := h
    have hpm : paintMultiplier fd.paintTier = 1 := by
      unfold paintMultiplier
      rw [if_neg h1, if_neg h2, if_neg h3]
    refine ⟨hpm, ?_⟩
    have hmn : perSqftMin fd = BASE_RATES.min * difficultyMultiplier fd.difficultyLevel *
        surfaceMultiplier fd.projectType fd.surfaces := by
      unfold perSqftMin
      rw [hpm]
      ring
    have hmx : perSqftMax fd = BASE_RATES.max * difficultyMultiplier fd.difficultyLevel *
        surfaceMultiplier fd.projectType fd.surfaces := by
      unfold perSqftMax
      rw [hpm]
      ring
    simp only [computeEstimate, computeEstimateSkippingTier, rawMin, rawMax, hmn, hmx]
  · intro h
    simp only [List.mem_cons, List.not_mem_nil, or_false, not_or] at h
    obtain ⟨h1, h2, h3, h4, h5⟩ := h
    have hdm : difficultyMultiplier fd.difficultyLevel = 1 := by
      unfold difficultyMultiplier
      rw [if_neg h1, if_neg h2, if_neg h3, if_neg h4, if_neg h5]
    refine ⟨hdm, ?_⟩
    have hmn : perSqftMin fd = BASE_RATES.min * paintMultiplier fd.paintTier *
        surfaceMultiplier fd.projectType fd.surfaces := by
      unfold perSqftMin
      rw [hdm]
      ring
    have hmx : perSqftMax fd = BASE_RATES.max * paintMultiplier fd.paintTier *
        surfaceMultiplier fd.projectType fd.surfaces := by
      unfold perSqftMax
      rw [hdm]
      ring
    simp only [computeEstimate, computeEstimateSkippingDifficulty, rawMin, rawMax, hmn, hmx]

/-- C8 witness: a made-up tier and difficulty key leave the band equal to
the skipped-step computation. -/
theorem claim_C8_unrecognized_keys_witness :
    ("ultra" : String) ∉ (["standard", "premium", "designer"] : List String) ∧
    computeEstimate (FormData.mk "interior" (some 1000) "ultra" ["walls"] "odd") =
      computeEstimateSkippingTier (FormData.mk "interior" (some 1000) "ultra" ["walls"] "odd") ∧
    computeEstimate (FormData.mk "interior" (some 1000) "ultra" ["walls"] "odd") =
      computeEstimateSkippingDifficulty
        (FormData.mk "interior" (some 1000) "ultra" ["walls"] "odd") :=
  ⟨by decide,
   ((claim_C8_unrecognized_keys
      (FormData.mk "interior" (some 1000) "ultra" ["walls"] "odd")).1 (by decide)).2,
   ((claim_C8_unrecognized_keys
      (FormData.mk "interior" (some 1000) "ultra" ["walls"] "odd")).2 (by decide)).2⟩

end PaintingCalculator
